import Mathlib

/-!
Verification of the photo-timestamp extraction and EXIF-rewrite tool.

The source is a single Python script.  We shallowly embed its pure core:

* a `Json` value type standing for the Python objects produced by
  `json.load` (dicts become association lists in insertion order,
  `None` becomes `Json.null`);
* `Photo.from_json_structure`, the shared photo-fragment decoder;
* `extract_photos_from_posts`, the post-shaped extractor;
* the pure core of `merge_conversation` (the fold over the already
  loaded fragment documents, in sorted filename order);
* `modify_date_taken`, over an abstract map from paths to EXIF
  dictionaries, together with a model of
  `datetime.fromtimestamp(ts, UTC).strftime("%Y:%m:%d %H:%M:%S")`.

Python exceptions are modelled by `PyError`: `KeyError` (the spec's
`MissingFieldError`) as `missingField`, `IndexError` as `indexError`,
`AttributeError` as `attributeError`, `TypeError` as `typeError`, and
OS-level failures as `ioError`.  Fallible code returns
`Except PyError _`.
-/

/-- A JSON value as loaded by `json.load`.  Objects keep their fields as
an association list in insertion order (Python dicts are ordered and
have unique keys); numbers are integers, which is all the export uses. -/
inductive Json where
  | null : Json
  | bool : Bool → Json
  | num : Int → Json
  | str : String → Json
  | arr : List Json → Json
  | obj : List (String × Json) → Json

/-- The Python exceptions the embedded code can raise.  `KeyError k` is
the spec's `MissingFieldError` and carries the missing key. -/
inductive PyError where
  | missingField : String → PyError
  | indexError : PyError
  | attributeError : PyError
  | typeError : PyError
  | ioError : PyError

/-- First-match lookup in an object's field list (Python dict lookup). -/
def lookupField : List (String × Json) → String → Option Json
  | [], _ => none
  | (k, v) :: rest, key => if k = key then some v else lookupField rest key

/-- Python `x[key]` on a dict: the value, or `KeyError` when the key is
absent; subscripting a non-dict with a string key is a `TypeError`. -/
def Json.getItem : Json → String → Except PyError Json
  | Json.obj fields, key =>
    match lookupField fields key with
    | some v => Except.ok v
    | none => Except.error (PyError.missingField key)
  | _, _ => Except.error PyError.typeError

/-- Python `x.get(key, default)` on a dict; calling `.get` on a
non-dict raises `AttributeError`. -/
def Json.dictGetD : Json → String → Json → Except PyError Json
  | Json.obj fields, key, dflt => Except.ok ((lookupField fields key).getD dflt)
  | _, _, _ => Except.error PyError.attributeError

/-- Python `x[0]`: the first element of a list, `IndexError` on an empty
list.  Subscripting a non-list with `0` is modelled as `TypeError`. -/
def Json.index0 : Json → Except PyError Json
  | Json.arr (x :: _) => Except.ok x
  | Json.arr [] => Except.error PyError.indexError
  | _ => Except.error PyError.typeError

/-- Python `for _ in x` / `list(x)` restricted to JSON lists; iterating
any non-list value is modelled as `TypeError`. -/
def Json.asIterList : Json → Except PyError (List Json)
  | Json.arr xs => Except.ok xs
  | _ => Except.error PyError.typeError

/-- Python `x.extend`'s receiver: `x` must be a list, otherwise the
attribute lookup raises `AttributeError`. -/
def Json.asExtendList : Json → Except PyError (List Json)
  | Json.arr xs => Except.ok xs
  | _ => Except.error PyError.attributeError

/-- Python `key in x` on a dict; membership tests on non-dict JSON
values are modelled as `TypeError`. -/
def Json.hasKey : Json → String → Except PyError Bool
  | Json.obj fields, key => Except.ok (lookupField fields key).isSome
  | _, _ => Except.error PyError.typeError

/-- Replace the value of `key` in a field list (Python in-place update
of an existing dict entry; appends when the key was absent, matching a
dict assignment on a fresh key). -/
def setFieldList : List (String × Json) → String → Json → List (String × Json)
  | [], key, v => [(key, v)]
  | (k, w) :: rest, key, v =>
    if k = key then (k, v) :: rest else (k, w) :: setFieldList rest key v

/-- Python `x[key] = v` on a dict; on a non-dict it is a `TypeError`. -/
def Json.setItem : Json → String → Json → Except PyError Json
  | Json.obj fields, key, v => Except.ok (Json.obj (setFieldList fields key v))
  | _, _, _ => Except.error PyError.typeError

/-- The uniform photo record: a relative URI and the chosen timestamp.
The Python dataclass annotates `uri : str` and `timestamp : int`, but
the annotations are not enforced, so both fields hold whatever JSON
value the extractor picked. -/
structure Photo where
  uri : Json
  timestamp : Json

/-- Lines 51-56 of the source: the optional descent
`structure.get("media_metadata", {}).get("photo_metadata", {})
.get("exif_data", [{}])[0].get("taken_timestamp")`.  The final `.get`
with no default returns `None` (`Json.null`) when the key is absent. -/
def Photo.takenTimestamp (struct : Json) : Except PyError Json := do
  let mm ← struct.dictGetD "media_metadata" (Json.obj [])
  let pm ← mm.dictGetD "photo_metadata" (Json.obj [])
  let ed ← pm.dictGetD "exif_data" (Json.arr [Json.obj []])
  let first ← ed.index0
  first.dictGetD "taken_timestamp" Json.null

/-- Model of `Photo.from_json_structure`: reads `structure["uri"]`, then the
nested taken-timestamp chain; when that yields `None` it falls back to
`structure["creation_timestamp"]`. -/
def Photo.from_json_structure (struct : Json) : Except PyError Photo := do
  let uri ← struct.getItem "uri"
  let taken ← Photo.takenTimestamp struct
  let timestamp ←
    match taken with
    | Json.null => struct.getItem "creation_timestamp"
    | t => pure t
  pure ⟨uri, timestamp⟩

/-- Model of `extract_photos_from_list`: applies the fragment decoder to each
element in order. -/
def extract_photos_from_list (photos_data : List Json) : Except PyError (List Photo) :=
  photos_data.mapM Photo.from_json_structure

/-- The body of the inner loop of `extract_photos_from_posts`: append a
record for an entry that has a `"media"` key, skip it otherwise. -/
def postEntryStep (acc : List Photo) (entry : Json) : Except PyError (List Photo) := do
  let hasMedia ← entry.hasKey "media"
  if hasMedia then do
    let media ← entry.getItem "media"
    let p ← Photo.from_json_structure media
    pure (acc ++ [p])
  else
    pure acc

/-- The body of the outer loop of `extract_photos_from_posts`: compute
`photo.get("attachments", [{}])[0].get("data", [{}])` — note that only
the FIRST attachment is subscripted — and run the inner loop over the
resulting data entries. -/
def postStep (photos : List Photo) (post : Json) : Except PyError (List Photo) := do
  let atts ← post.dictGetD "attachments" (Json.arr [Json.obj []])
  let att0 ← atts.index0
  let ds ← att0.dictGetD "data" (Json.arr [Json.obj []])
  let entries ← ds.asIterList
  entries.foldlM postEntryStep photos

/-- Model of `extract_photos_from_posts`: collect a record for every
media-bearing data entry of the first attachment of each post. -/
def extract_photos_from_posts (data : List Json) : Except PyError (List Photo) :=
  data.foldlM postStep []

/-- One iteration of the non-first branch of `merge_conversation`:
`merged_data["messages"].extend(data["messages"])`, in Python's
evaluation order (receiver lookup, attribute lookup, argument lookup,
call), followed by the in-place update of the `messages` entry. -/
def mergeStep (merged frag : Json) : Except PyError Json := do
  let ms ← merged.getItem "messages"
  let xs ← ms.asExtendList
  let newMs ← frag.getItem "messages"
  let ys ← newMs.asIterList
  merged.setItem "messages" (Json.arr (xs ++ ys))

/-- The pure core of `merge_conversation`: the loop over the already
loaded fragment documents, in sorted filename order.  Index 0 is kept
whole (`merged_data = data`); every later fragment only extends the
`messages` list.  An empty directory returns the initial `{}`. -/
def merge_conversation (docs : List Json) : Except PyError Json :=
  match docs with
  | [] => Except.ok (Json.obj [])
  | first :: rest => rest.foldlM mergeStep first

/-- The `messages` list of a fragment, for stating merge results;
empty when the field is absent or not a list. -/
def messagesOf (frag : Json) : List Json :=
  match frag.getItem "messages" with
  | Except.ok (Json.arr ys) => ys
  | _ => []

/-- An EXIF dictionary as handled through `piexif`: the
`DateTimeOriginal` tag we rewrite, plus the remaining tags kept
opaque (the script never touches them). -/
structure ExifDict where
  dateTimeOriginal : Option String
  otherTags : List (Nat × String)

/-- Python `str.endswith`: do the last `len(suffix)` characters of `s`
equal `suffix`? -/
def endswith (s suffix : String) : Bool :=
  s.data.drop (s.data.length - suffix.data.length) == suffix.data

/-- The character `'0'` + `n`, for rendering one decimal digit. -/
def digitChar (n : Nat) : Char := Char.ofNat (48 + n)

/-- A two-digit zero-padded field (`%m`, `%d`, `%H`, `%M`, `%S`). -/
def pad2 (n : Nat) : List Char := [digitChar (n / 10), digitChar (n % 10)]

/-- glibc `%Y`: the year as an unpadded decimal number.  `datetime`
years lie in 1..9999, so four branches cover the whole range; years
below 1000 render with fewer than four characters (observed platform
behavior, not zero-padded). -/
def yearChars (y : Nat) : List Char :=
  if y < 10 then [digitChar y]
  else if y < 100 then [digitChar (y / 10), digitChar (y % 10)]
  else if y < 1000 then [digitChar (y / 100), digitChar (y / 10 % 10), digitChar (y % 10)]
  else [digitChar (y / 1000), digitChar (y / 100 % 10), digitChar (y / 10 % 10), digitChar (y % 10)]

/-- A broken-down UTC date-time: year, month, day, hour, minute,
second; the result of `datetime.fromtimestamp(ts, datetime.UTC)`. -/
structure DateTime where
  year : Nat
  month : Nat
  day : Nat
  hour : Nat
  minute : Nat
  second : Nat

/-- Model of `new_date.strftime("%Y:%m:%d %H:%M:%S")` (line 201 of the
source). -/
def strftimeExif (dt : DateTime) : String :=
  String.mk (yearChars dt.year ++ ':' :: pad2 dt.month ++ ':' :: pad2 dt.day
    ++ ' ' :: pad2 dt.hour ++ ':' :: pad2 dt.minute ++ ':' :: pad2 dt.second)

/-- Proleptic-Gregorian date from a day count relative to 1970-01-01
(the standard civil-from-days conversion used by `datetime`).  After
splitting off the 400-year era the remaining arithmetic is
nonnegative, so it is carried out in `Nat`. -/
def civilFromDays (z0 : Int) : Int × Nat × Nat :=
  let z : Int := z0 + 719468
  let era : Int := z / 146097
  let doe : Nat := (z % 146097).toNat
  let yoe : Nat := (doe - doe / 1460 + doe / 36524 - doe / 146096) / 365
  let doy : Nat := doe - (365 * yoe + yoe / 4 - yoe / 100)
  let mp : Nat := (5 * doy + 2) / 153
  let d : Nat := doy - (153 * mp + 2) / 5 + 1
  let m : Nat := if mp < 10 then mp + 3 else mp - 9
  (era * 400 + yoe + (if m ≤ 2 then 1 else 0), m, d)

/-- Model of `datetime.datetime.fromtimestamp(ts, datetime.UTC)` (line 247 of
the source): splits the epoch value into days and seconds-of-day and
converts; raises `ValueError` (modelled as `none`) outside the
representable years 1..9999. -/
def fromtimestampUTC (ts : Int) : Option DateTime :=
  let days : Int := ts / 86400
  let sod : Nat := (ts % 86400).toNat
  match civilFromDays days with
  | (y, m, d) =>
    if 1 ≤ y ∧ y ≤ 9999 then
      some ⟨y.toNat, m, d, sod / 3600, sod % 3600 / 60, sod % 60⟩
    else
      none

/-- The full rendering pipeline of lines 247 and 201: epoch seconds to
the textual EXIF timestamp, `none` when `fromtimestamp` raises. -/
def renderTimestamp (ts : Int) : Option String :=
  (fromtimestampUTC ts).map strftimeExif

/-- Does a string match the fixed-width pattern
`YYYY:MM:DD HH:MM:SS` (19 characters, digits and the mandated
separators)? -/
def matchesExifPattern (s : String) : Bool :=
  match s.data with
  | [y1, y2, y3, y4, a, m1, m2, b, d1, d2, c, h1, h2, e, i1, i2, f, s1, s2] =>
    y1.isDigit && y2.isDigit && y3.isDigit && y4.isDigit &&
    a == ':' && m1.isDigit && m2.isDigit && b == ':' &&
    d1.isDigit && d2.isDigit && c == ' ' && h1.isDigit && h2.isDigit &&
    e == ':' && i1.isDigit && i2.isDigit && f == ':' && s1.isDigit && s2.isDigit
  | _ => false

/-- First-match lookup of a path in the abstract file store. -/
def lookupFile : List (String × ExifDict) → String → Option ExifDict
  | [], _ => none
  | (p, e) :: rest, path => if p = path then some e else lookupFile rest path

/-- Replace the EXIF dictionary stored at `path`. -/
def setFile : List (String × ExifDict) → String → ExifDict → List (String × ExifDict)
  | [], path, e => [(path, e)]
  | (p, w) :: rest, path, e =>
    if p = path then (p, e) :: rest else (p, w) :: setFile rest path e

/-- Model of `modify_date_taken(photo_path, new_date)` over an abstract file
store (a map from paths to EXIF dictionaries).  The guard
`if not photo_path.endswith(".jpg"): return` comes first; only then is
the file loaded (a missing file is an I/O failure), the
`DateTimeOriginal` tag replaced by the `strftime` rendering, and the
store updated.  The binary encode/decode round-trip of `piexif` is
abstracted away. -/
def modify_date_taken (files : List (String × ExifDict)) (photo_path : String)
    (new_date : DateTime) : Except PyError (List (String × ExifDict)) :=
  if !endswith photo_path ".jpg" then
    Except.ok files
  else
    match lookupFile files photo_path with
    | none => Except.error PyError.ioError
    | some exif =>
      Except.ok (setFile files photo_path
        { exif with dateTimeOriginal := some (strftimeExif new_date) })

/-- One exif-data metadata block per the export's shape: an object whose
`taken_timestamp`, when present, is an integer. -/
def isExifBlock : Json → Bool
  | Json.obj fields =>
    match lookupField fields "taken_timestamp" with
    | none => true
    | some (Json.num _) => true
    | some _ => false
  | _ => false

/-- The `photo_metadata` shape: an object whose `exif_data`, when
present, is a list of metadata blocks (possibly empty). -/
def isPhotoMetadata : Json → Bool
  | Json.obj fields =>
    match lookupField fields "exif_data" with
    | none => true
    | some (Json.arr blocks) => blocks.all isExifBlock
    | some _ => false
  | _ => false

/-- The `media_metadata` shape: an object whose `photo_metadata`, when
present, has the photo-metadata shape. -/
def isMediaMetadata : Json → Bool
  | Json.obj fields =>
    match lookupField fields "photo_metadata" with
    | none => true
    | some pm => isPhotoMetadata pm
  | _ => false

/-- A photo-fragment per the export's shared shape: an object whose
`uri` (when present) is a string, whose `creation_timestamp` (when
present) is an integer, and whose `media_metadata` (when present) has
the media-metadata shape.  The required fields are allowed to be absent
so that the missing-field failure mode is inside the domain. -/
def isPhotoFragment : Json → Bool
  | Json.obj fields =>
    (match lookupField fields "uri" with
     | none => true
     | some (Json.str _) => true
     | some _ => false) &&
    (match lookupField fields "creation_timestamp" with
     | none => true
     | some (Json.num _) => true
     | some _ => false) &&
    (match lookupField fields "media_metadata" with
     | none => true
     | some mm => isMediaMetadata mm)
  | _ => false

/-- Is the fragment's `exif_data`, where the code's descent finds one,
nonempty?  `true` whenever the descent falls back to a default. -/
def exifNonempty : Json → Bool
  | Json.obj fields =>
    match lookupField fields "media_metadata" with
    | some (Json.obj f2) =>
      match lookupField f2 "photo_metadata" with
      | some (Json.obj f3) =>
        match lookupField f3 "exif_data" with
        | some (Json.arr blocks) => !blocks.isEmpty
        | _ => true
      | _ => true
    | _ => true
  | _ => true

/-- Did extraction either succeed or fail with the spec's
`MissingFieldError`? -/
def okOrMissingField (r : Except PyError Photo) : Bool :=
  match r with
  | Except.ok _ => true
  | Except.error (PyError.missingField _) => true
  | _ => false

/-- A post's data entry: an object; when it has a `"media"` key, the
media value must decode to a record. -/
def isPostEntry : Json → Bool
  | Json.obj fields =>
    match lookupField fields "media" with
    | none => true
    | some media => (Photo.from_json_structure media).toBool
  | _ => false

/-- A post per the posts/check-ins document shape: an object whose
`attachments`, when present, is a NONEMPTY list whose first element is
an object whose `data`, when present, is a list of post data entries.
(An empty `attachments` list would hit the `[0]` subscript.) -/
def isPost : Json → Bool
  | Json.obj fields =>
    match lookupField fields "attachments" with
    | none => true
    | some (Json.arr (a0 :: _)) =>
      (match a0 with
       | Json.obj f2 =>
         match lookupField f2 "data" with
         | none => true
         | some (Json.arr entries) => entries.all isPostEntry
         | some _ => false
       | _ => false)
    | some _ => false
  | _ => false

/-- The data entries the code actually iterates for one post: the
`data` list of the FIRST attachment, following the code's defaulting
(`.get("attachments", [{}])[0].get("data", [{}])`); empty on shapes the
code would fault on. -/
def firstAttachmentEntries : Json → List Json
  | Json.obj fields =>
    (match (lookupField fields "attachments").getD (Json.arr [Json.obj []]) with
     | Json.arr (a0 :: _) =>
       (match a0 with
        | Json.obj f2 =>
          (match (lookupField f2 "data").getD (Json.arr [Json.obj []]) with
           | Json.arr entries => entries
           | _ => [])
        | _ => [])
     | _ => [])
  | _ => []

/-- Does a data entry carry a `"media"` key? -/
def entryHasMedia : Json → Bool
  | Json.obj fields => (lookupField fields "media").isSome
  | _ => false

/-- How many media-bearing data entries the first attachment of one
post has. -/
def postMediaCount (post : Json) : Nat :=
  ((firstAttachmentEntries post).filter entryHasMedia).length

/-- All data entries of ALL attachments of one post.  Modelled from the
spec's words ("each post may carry a sequence of attachments, each
attachment a sequence of data entries"), to compare the claimed
record count with what the code produces. -/
def specAllAttachmentEntries : Json → List Json
  | Json.obj fields =>
    (match lookupField fields "attachments" with
     | some (Json.arr atts) =>
       atts.foldr
         (fun att acc =>
           (match att with
            | Json.obj f2 =>
              (match lookupField f2 "data" with
               | some (Json.arr entries) => entries
               | _ => [])
            | _ => []) ++ acc)
         []
     | _ => [])
  | _ => []

/-- The spec's claimed record count for a list of posts: one record per
media-bearing data entry across EVERY attachment of every post. -/
def specClaimedRecordCount (posts : List Json) : Nat :=
  (posts.map (fun post => ((specAllAttachmentEntries post).filter entryHasMedia).length)).sum

/-- The record the code produces for one post data entry: present
exactly when the entry has a `"media"` key whose value decodes. -/
def entryRecord (e : Json) : Option Photo :=
  match e with
  | Json.obj fields =>
    match lookupField fields "media" with
    | some media =>
      match Photo.from_json_structure media with
      | Except.ok p => some p
      | Except.error _ => none
    | none => none
  | _ => none

/-- Example photo-fragment with both a taken-timestamp (5) and a
creation-timestamp (7). -/
def egTaken : Json :=
  Json.obj [("uri", Json.str "photos/a.jpg"), ("creation_timestamp", Json.num 7),
    ("media_metadata", Json.obj [("photo_metadata", Json.obj [("exif_data",
      Json.arr [Json.obj [("taken_timestamp", Json.num 5)]])])])]

/-- Example photo-fragment whose `exif_data` is present but empty. -/
def egEmptyExif : Json :=
  Json.obj [("uri", Json.str "photos/b.jpg"), ("creation_timestamp", Json.num 7),
    ("media_metadata", Json.obj [("photo_metadata", Json.obj [("exif_data",
      Json.arr [])])])]

/-- Example photo-fragment with a creation-timestamp and no
taken-timestamp anywhere, its `exif_data` being present but empty. -/
def egNoTakenEmptyExif : Json :=
  Json.obj [("uri", Json.str "photos/d.jpg"), ("creation_timestamp", Json.num 11),
    ("media_metadata", Json.obj [("photo_metadata", Json.obj [("exif_data",
      Json.arr [])])])]

/-- Example post with TWO attachments, each carrying one media-bearing
data entry. -/
def cexPost : Json :=
  Json.obj [("attachments", Json.arr [
    Json.obj [("data", Json.arr [Json.obj [("media",
      Json.obj [("uri", Json.str "u"), ("creation_timestamp", Json.num 5)])]])],
    Json.obj [("data", Json.arr [Json.obj [("media",
      Json.obj [("uri", Json.str "v"), ("creation_timestamp", Json.num 6)])]])]])]

/-- Example post with one attachment holding two data entries, one with
`media` and one without. -/
def witPost : Json :=
  Json.obj [("attachments", Json.arr [
    Json.obj [("data", Json.arr [
      Json.obj [("media",
        Json.obj [("uri", Json.str "w"), ("creation_timestamp", Json.num 9)])],
      Json.obj [("title", Json.str "no media here")]])]])]

/-! Helper lemmas: reduction of the `Except` monad operations and of
the association-list primitives. -/

theorem exceptOkBind {A B : Type} (a : A) (f : A → Except PyError B) :
    (Except.ok a : Except PyError A) >>= f = f a := rfl

theorem exceptErrorBind {A B : Type} (e : PyError) (f : A → Except PyError B) :
    (Except.error e : Except PyError A) >>= f = Except.error e := rfl

theorem exceptPure {A : Type} (a : A) : (pure a : Except PyError A) = Except.ok a := rfl

theorem lookup_set_self (fields : List (String × Json)) (k : String) (v : Json) :
    lookupField (setFieldList fields k v) k = some v := by
  induction fields with
  | nil => simp [setFieldList, lookupField]
  | cons p rest ih =>
    obtain ⟨k1, w⟩ := p
    by_cases h : k1 = k <;> simp [setFieldList, lookupField, h, ih]

theorem lookup_set_ne (fields : List (String × Json)) (k : String) (v : Json)
    (k1 : String) (h : k1 ≠ k) :
    lookupField (setFieldList fields k v) k1 = lookupField fields k1 := by
  induction fields with
  | nil => simp [setFieldList, lookupField, h.symm]
  | cons p rest ih =>
    obtain ⟨k2, w⟩ := p
    by_cases h2 : k2 = k
    · subst h2
      simp [setFieldList, lookupField, Ne.symm h]
    · by_cases h3 : k2 = k1 <;> simp [setFieldList, lookupField, h2, h3, h, ih]

theorem set_set (fields : List (String × Json)) (k : String) (v v1 : Json) :
    setFieldList (setFieldList fields k v) k v1 = setFieldList fields k v1 := by
  induction fields with
  | nil => simp [setFieldList]
  | cons p rest ih =>
    obtain ⟨k1, w⟩ := p
    by_cases h : k1 = k <;> simp [setFieldList, h, ih]

theorem set_lookup_self (fields : List (String × Json)) (k : String) (v : Json)
    (h : lookupField fields k = some v) : setFieldList fields k v = fields := by
  induction fields with
  | nil => simp [lookupField] at h
  | cons p rest ih =>
    obtain ⟨k1, w⟩ := p
    by_cases h1 : k1 = k
    · subst h1
      simp [lookupField] at h
      simp [setFieldList, h]
    · simp [lookupField, h1] at h
      simp [setFieldList, h1, ih h]

/-! Helper lemmas about the photo-fragment decoder. -/

theorem tts_shape (fields : List (String × Json))
    (h3 : (match lookupField fields "media_metadata" with
           | none => true
           | some mm => isMediaMetadata mm) = true)
    (hne : exifNonempty (Json.obj fields) = true) :
    Photo.takenTimestamp (Json.obj fields) = Except.ok Json.null ∨
    ∃ n : Int, Photo.takenTimestamp (Json.obj fields) = Except.ok (Json.num n) := by
  unfold Photo.takenTimestamp
  rcases hmm : lookupField fields "media_metadata" with _ | mm
  · left
    simp only [Json.dictGetD, hmm, Option.getD_none, Option.getD_some, exceptOkBind,
      Json.index0, lookupField]
  · rw [hmm] at h3
    rcases mm with _ | b | n | s | xs | f2 <;>
      simp only [isMediaMetadata, Bool.false_eq_true] at h3
    rcases hpm : lookupField f2 "photo_metadata" with _ | pm
    · left
      simp only [Json.dictGetD, hmm, hpm, Option.getD_none, Option.getD_some, exceptOkBind,
        Json.index0, lookupField]
    · rw [hpm] at h3
      rcases pm with _ | b | n | s | xs | f3 <;>
        simp only [isPhotoMetadata, Bool.false_eq_true] at h3
      rcases hed : lookupField f3 "exif_data" with _ | ed
      · left
        simp only [Json.dictGetD, hmm, hpm, hed, Option.getD_none, Option.getD_some,
          exceptOkBind, Json.index0, lookupField]
      · rw [hed] at h3
        rcases ed with _ | b | n | s | blocks | f4 <;> simp only [Bool.false_eq_true] at h3
        have hblocks : blocks ≠ [] := by
          simp only [exifNonempty, hmm, hpm, hed] at hne
          simpa using hne
        rcases blocks with _ | ⟨b0, rest⟩
        · exact absurd rfl hblocks
        have hb0 : isExifBlock b0 = true := by
          simp only [List.all_cons, Bool.and_eq_true] at h3
          exact h3.1
        rcases b0 with _ | b | n | s | xs | f5 <;>
          simp only [isExifBlock, Bool.false_eq_true] at hb0
        rcases htk : lookupField f5 "taken_timestamp" with _ | tk
        · left
          simp only [Json.dictGetD, hmm, hpm, hed, htk, Option.getD_none, Option.getD_some,
            exceptOkBind, Json.index0, lookupField]
        · rw [htk] at hb0
          rcases tk with _ | b | n | s | xs | f6 <;> simp only [Bool.false_eq_true] at hb0
          right
          refine ⟨n, ?_⟩
          simp only [Json.dictGetD, hmm, hpm, hed, htk, Option.getD_none, Option.getD_some,
            exceptOkBind, Json.index0, lookupField]

/-! Helper lemmas about the conversation merge. -/

theorem mergeStep_ok (fields : List (String × Json)) (zs : List Json)
    (h : lookupField fields "messages" = some (Json.arr zs))
    (frag : Json) (ys : List Json)
    (hf : frag.getItem "messages" = Except.ok (Json.arr ys)) :
    mergeStep (Json.obj fields) frag =
      Except.ok (Json.obj (setFieldList fields "messages" (Json.arr (zs ++ ys)))) := by
  have h1 : (Json.obj fields).getItem "messages" = Except.ok (Json.arr zs) := by
    simp [Json.getItem, h]
  simp only [mergeStep]
  rw [h1, exceptOkBind]
  simp only [Json.asExtendList, exceptOkBind]
  rw [hf, exceptOkBind]
  simp only [Json.asIterList, exceptOkBind, Json.setItem]

theorem mergeStep_err (fields2 gf : List (String × Json)) (zs2 : List Json)
    (h : lookupField fields2 "messages" = some (Json.arr zs2))
    (hnone : lookupField gf "messages" = none) :
    mergeStep (Json.obj fields2) (Json.obj gf) =
      Except.error (PyError.missingField "messages") := by
  have h1 : (Json.obj fields2).getItem "messages" = Except.ok (Json.arr zs2) := by
    simp [Json.getItem, h]
  have h2 : (Json.obj gf).getItem "messages" =
      Except.error (PyError.missingField "messages") := by
    simp [Json.getItem, hnone]
  simp only [mergeStep]
  rw [h1, exceptOkBind]
  simp only [Json.asExtendList, exceptOkBind]
  rw [h2, exceptErrorBind]

theorem messagesOf_eq (frag : Json) (ys : List Json)
    (hf : frag.getItem "messages" = Except.ok (Json.arr ys)) : messagesOf frag = ys := by
  simp [messagesOf, hf]

theorem merge_foldl (rest : List Json) : ∀ (fields : List (String × Json)) (zs : List Json),
    lookupField fields "messages" = some (Json.arr zs) →
    (∀ f ∈ rest, ∃ ys, f.getItem "messages" = Except.ok (Json.arr ys)) →
    rest.foldlM mergeStep (Json.obj fields) =
      Except.ok (Json.obj (setFieldList fields "messages"
        (Json.arr (zs ++ (rest.map messagesOf).flatten)))) := by
  induction rest with
  | nil =>
    intro fields zs h _
    simp [List.foldlM, exceptPure, set_lookup_self fields "messages" (Json.arr zs) h]
  | cons f rest ih =>
    intro fields zs h hrest
    obtain ⟨ys, hf⟩ := hrest f (List.mem_cons_self f rest)
    rw [List.foldlM_cons, mergeStep_ok fields zs h f ys hf, exceptOkBind]
    rw [ih (setFieldList fields "messages" (Json.arr (zs ++ ys))) (zs ++ ys)
      (lookup_set_self fields "messages" (Json.arr (zs ++ ys)))
      (fun g hg => hrest g (List.mem_cons_of_mem f hg))]
    rw [set_set]
    simp [messagesOf_eq f ys hf, List.append_assoc]

/-! Helper lemmas about post extraction. -/

theorem postEntries_fold (entries : List Json) : ∀ acc : List Photo,
    entries.all isPostEntry = true →
    entries.foldlM postEntryStep acc =
      Except.ok (acc ++ entries.filterMap entryRecord) := by
  induction entries with
  | nil =>
    intro acc _
    simp [List.foldlM, exceptPure]
  | cons e rest ih =>
    intro acc hall
    simp only [List.all_cons, Bool.and_eq_true] at hall
    obtain ⟨he, hrest⟩ := hall
    rcases e with _ | b | n | s | xs | fields <;>
      simp only [isPostEntry, Bool.false_eq_true] at he
    rw [List.foldlM_cons]
    rcases hm : lookupField fields "media" with _ | media
    · have hstep : postEntryStep acc (Json.obj fields) = Except.ok acc := by
        simp only [postEntryStep, Json.hasKey, hm, exceptOkBind]
        rfl
      rw [hstep, exceptOkBind, ih acc hrest]
      simp [List.filterMap_cons, entryRecord, hm]
    · rw [hm] at he
      have he2 : (Photo.from_json_structure media).toBool = true := by simpa using he
      rcases hfj : Photo.from_json_structure media with err | p
      · rw [hfj] at he2
        simp [Except.toBool] at he2
      · have hstep : postEntryStep acc (Json.obj fields) = Except.ok (acc ++ [p]) := by
          simp [postEntryStep, Json.hasKey, Json.getItem, hm, hfj, exceptOkBind, exceptPure]
        rw [hstep, exceptOkBind, ih _ hrest]
        simp [List.filterMap_cons, entryRecord, hm, hfj]

theorem entryRecord_count (entries : List Json) (hall : entries.all isPostEntry = true) :
    (entries.filterMap entryRecord).length = (entries.filter entryHasMedia).length := by
  induction entries with
  | nil => rfl
  | cons e rest ih =>
    simp only [List.all_cons, Bool.and_eq_true] at hall
    obtain ⟨he, hrest⟩ := hall
    rcases e with _ | b | n | s | xs | fields <;>
      simp only [isPostEntry, Bool.false_eq_true] at he
    rcases hm : lookupField fields "media" with _ | media
    · simp [List.filterMap_cons, List.filter_cons, entryRecord, entryHasMedia, hm, ih hrest]
    · rw [hm] at he
      have he2 : (Photo.from_json_structure media).toBool = true := by simpa using he
      rcases hfj : Photo.from_json_structure media with err | p
      · rw [hfj] at he2
        simp [Except.toBool] at he2
      · simp [List.filterMap_cons, List.filter_cons, entryRecord, entryHasMedia, hm, hfj,
          ih hrest]

theorem firstAttachment_all (post : Json) (hp : isPost post = true) :
    (firstAttachmentEntries post).all isPostEntry = true := by
  rcases post with _ | b | n | s | xs | fields <;>
    simp only [isPost, Bool.false_eq_true] at hp
  rcases ha : lookupField fields "attachments" with _ | atts
  · simp [firstAttachmentEntries, ha, isPostEntry, lookupField]
  · rw [ha] at hp
    rcases atts with _ | b | n | s | (_ | ⟨a0, arest⟩) | f9 <;>
      simp only [Bool.false_eq_true] at hp
    rcases a0 with _ | b | n | s | xs | f2 <;> simp only [Bool.false_eq_true] at hp
    rcases hd : lookupField f2 "data" with _ | ds
    · simp [firstAttachmentEntries, ha, hd, isPostEntry, lookupField]
    · rw [hd] at hp
      rcases ds with _ | b | n | s | entries | f10 <;> simp only [Bool.false_eq_true] at hp
      simp [firstAttachmentEntries, ha, hd, hp]

theorem postStep_ok (post : Json) (hp : isPost post = true) (photos : List Photo) :
    postStep photos post =
      Except.ok (photos ++ (firstAttachmentEntries post).filterMap entryRecord) := by
  have hall := firstAttachment_all post hp
  rcases post with _ | b | n | s | xs | fields <;>
    simp only [isPost, Bool.false_eq_true] at hp
  rcases ha : lookupField fields "attachments" with _ | atts
  · have hfe : firstAttachmentEntries (Json.obj fields) = [Json.obj []] := by
      simp [firstAttachmentEntries, ha, lookupField]
    rw [hfe] at hall ⊢
    simp only [postStep, Json.dictGetD, ha, Option.getD_none, exceptOkBind, Json.index0,
      lookupField, Option.getD_some, Json.asIterList]
    rw [postEntries_fold [Json.obj []] photos hall]
  · rw [ha] at hp
    rcases atts with _ | b | n | s | (_ | ⟨a0, arest⟩) | f9 <;>
      simp only [Bool.false_eq_true] at hp
    rcases a0 with _ | b | n | s | xs | f2 <;> simp only [Bool.false_eq_true] at hp
    rcases hd : lookupField f2 "data" with _ | ds
    · have hfe : firstAttachmentEntries (Json.obj fields) = [Json.obj []] := by
        simp [firstAttachmentEntries, ha, hd, lookupField]
      rw [hfe] at hall ⊢
      simp only [postStep, Json.dictGetD, ha, Option.getD_some, exceptOkBind, Json.index0,
        hd, Option.getD_none, Json.asIterList]
      rw [postEntries_fold [Json.obj []] photos hall]
    · rw [hd] at hp
      rcases ds with _ | b | n | s | entries | f10 <;> simp only [Bool.false_eq_true] at hp
      have hfe : firstAttachmentEntries (Json.obj fields) = entries := by
        simp [firstAttachmentEntries, ha, hd]
      rw [hfe] at hall ⊢
      simp only [postStep, Json.dictGetD, ha, Option.getD_some, exceptOkBind, Json.index0,
        hd, Json.asIterList]
      rw [postEntries_fold entries photos hall]

theorem posts_fold (posts : List Json) : ∀ acc : List Photo,
    (∀ p ∈ posts, isPost p = true) →
    posts.foldlM postStep acc =
      Except.ok (acc ++
        (posts.map (fun p => (firstAttachmentEntries p).filterMap entryRecord)).flatten) := by
  induction posts with
  | nil =>
    intro acc _
    simp [List.foldlM, exceptPure]
  | cons p rest ih =>
    intro acc hall
    rw [List.foldlM_cons, postStep_ok p (hall p (List.mem_cons_self p rest)) acc,
      exceptOkBind, ih _ (fun q hq => hall q (List.mem_cons_of_mem p hq))]
    simp [List.append_assoc]

/-! Helper lemmas about timestamp rendering and the extension guard. -/

theorem civil_fields_small (z0 : Int) :
    1 ≤ (civilFromDays z0).2.1 ∧ (civilFromDays z0).2.1 ≤ 99 ∧
    1 ≤ (civilFromDays z0).2.2 ∧ (civilFromDays z0).2.2 ≤ 99 := by
  unfold civilFromDays
  dsimp only
  have hdoe : ((z0 + 719468) % 146097).toNat < 146097 := by omega
  set doe := ((z0 + 719468) % 146097).toNat with hdoedef
  set yoe := (doe - doe / 1460 + doe / 36524 - doe / 146096) / 365 with hyoedef
  set doy := doe - (365 * yoe + yoe / 4 - yoe / 100) with hdoydef
  set mp := (5 * doy + 2) / 153 with hmpdef
  have hdoy : doy ≤ 833 := by omega
  have hmp : mp ≤ 27 := by omega
  refine ⟨?_, ?_, ?_, ?_⟩
  · split <;> omega
  · split <;> omega
  · omega
  · omega

theorem digitChar_isDigit : ∀ n : Nat, n ≤ 9 → (digitChar n).isDigit = true := by decide

theorem strftime_pattern (dt : DateTime) (hy1 : 1000 ≤ dt.year) (hy2 : dt.year ≤ 9999)
    (hmo : dt.month ≤ 99) (hd : dt.day ≤ 99) (hh : dt.hour ≤ 99)
    (hmi : dt.minute ≤ 99) (hs : dt.second ≤ 99) :
    matchesExifPattern (strftimeExif dt) = true := by
  obtain ⟨y, mo, d, h, mi, s⟩ := dt
  simp only at hy1 hy2 hmo hd hh hmi hs
  have hy10 : ¬ y < 10 := by omega
  have hy100 : ¬ y < 100 := by omega
  have hy1000 : ¬ y < 1000 := by omega
  simp only [strftimeExif, yearChars, pad2, hy10, hy100, hy1000, if_false,
    List.cons_append, List.nil_append]
  simp only [matchesExifPattern, Bool.and_eq_true]
  refine ⟨⟨⟨⟨⟨⟨⟨⟨⟨⟨⟨⟨⟨⟨⟨⟨⟨⟨?_, ?_⟩, ?_⟩, ?_⟩, ?_⟩, ?_⟩, ?_⟩, ?_⟩, ?_⟩, ?_⟩, ?_⟩,
    ?_⟩, ?_⟩, ?_⟩, ?_⟩, ?_⟩, ?_⟩, ?_⟩, ?_⟩ <;>
    first
      | rfl
      | exact digitChar_isDigit _ (by omega)

theorem endswith_four_excl (p suf : String) (hlen : suf.data.length = 4)
    (hne : suf.data ≠ (".jpg" : String).data) (h : endswith p suf = true) :
    endswith p ".jpg" = false := by
  unfold endswith at h ⊢
  rw [beq_iff_eq] at h
  rw [beq_eq_false_iff_ne]
  rw [hlen] at h
  rw [show (".jpg" : String).data.length = 4 from rfl]
  intro hc
  exact hne (h.symm.trans hc)

theorem jpg_of_jpeg (p : String) (h : endswith p ".jpeg" = true) :
    endswith p ".jpg" = false := by
  unfold endswith at h ⊢
  rw [beq_iff_eq] at h
  rw [beq_eq_false_iff_ne]
  rw [show (".jpeg" : String).data.length = 5 from rfl] at h
  rw [show (".jpg" : String).data.length = 4 from rfl]
  have hlen : 5 ≤ p.data.length := by
    by_contra hlt
    have hz : p.data.drop (p.data.length - 5) = p.data := by
      rw [Nat.sub_eq_zero_of_le (by omega), List.drop_zero]
    rw [hz] at h
    have hx : p.data.length = 5 := by rw [h]; decide
    omega
  intro hc
  have h4 : p.data.length - 4 = (p.data.length - 5) + 1 := by omega
  rw [h4, ← List.drop_drop] at hc
  rw [h] at hc
  exact absurd hc (by decide)

/-- C1: for every photo-fragment carrying both a nested taken-timestamp
(the first exif block, reached by the optional metadata descent) and a
top-level `creation_timestamp`, extraction returns a record whose
timestamp is the taken-timestamp, so the creation-timestamp is never
chosen. -/
theorem taken_timestamp_preferred (struct u t c : Json)
    (hu : struct.getItem "uri" = Except.ok u)
    (ht : Photo.takenTimestamp struct = Except.ok t)
    (htn : t ≠ Json.null)
    (hc : struct.getItem "creation_timestamp" = Except.ok c) :
    Photo.from_json_structure struct = Except.ok ⟨u, t⟩ := by
  unfold Photo.from_json_structure
  rw [hu, ht]
  cases t with
  | null => exact absurd rfl htn
  | bool b => rfl
  | num n => rfl
  | str s => rfl
  | arr xs => rfl
  | obj fs => rfl

/-- C1 witness: on a concrete fragment with taken-timestamp 5 and
creation-timestamp 7, extraction picks 5. -/
theorem taken_timestamp_preferred_witness :
    Photo.from_json_structure egTaken = Except.ok ⟨Json.str "photos/a.jpg", Json.num 5⟩ :=
  taken_timestamp_preferred egTaken (Json.str "photos/a.jpg") (Json.num 5) (Json.num 7)
    rfl rfl (fun h => Json.noConfusion h) rfl

/-- C4 counterexample: a photo-fragment with no taken-timestamp
anywhere but whose `exif_data` is present and empty.  Its
`creation_timestamp` is present, yet extraction does not return it: the
`[0]` subscript raises `IndexError`, which is neither a record nor a
`MissingFieldError`. -/
theorem creation_fallback_empty_exif_cex :
    egNoTakenEmptyExif.getItem "creation_timestamp" = Except.ok (Json.num 11) ∧
    Photo.from_json_structure egNoTakenEmptyExif = Except.error PyError.indexError ∧
    okOrMissingField (Photo.from_json_structure egNoTakenEmptyExif) = false :=
  ⟨rfl, rfl, rfl⟩

/-- C4 (amended): for every photo-fragment from which the code's
taken-timestamp descent yields `None` — it has no taken-timestamp and
the `exif_data` the descent consults is nonempty or defaulted —
extraction returns the top-level `creation_timestamp`; when that is
also absent it fails with `MissingFieldError` for
`creation_timestamp`.  (When the fragment has no taken-timestamp
because `exif_data` is present but empty, extraction instead raises
`IndexError`, per the counterexample.) -/
theorem creation_timestamp_fallback (fields : List (String × Json)) (u : Json)
    (hu : lookupField fields "uri" = some u)
    (ht : Photo.takenTimestamp (Json.obj fields) = Except.ok Json.null) :
    (∀ c, lookupField fields "creation_timestamp" = some c →
      Photo.from_json_structure (Json.obj fields) = Except.ok ⟨u, c⟩) ∧
    (lookupField fields "creation_timestamp" = none →
      Photo.from_json_structure (Json.obj fields) =
        Except.error (PyError.missingField "creation_timestamp")) := by
  constructor
  · intro c hc
    simp only [Photo.from_json_structure, Json.getItem, hu, ht, hc]
    rfl
  · intro hc
    simp only [Photo.from_json_structure, Json.getItem, hu, ht, hc]
    rfl

/-- C4 witness: a fragment with no metadata at all falls back to its
creation-timestamp 7, and the same fragment without
`creation_timestamp` fails with the missing-field error. -/
theorem creation_timestamp_fallback_witness :
    Photo.from_json_structure
        (Json.obj [("uri", Json.str "photos/c.jpg"), ("creation_timestamp", Json.num 7)]) =
      Except.ok ⟨Json.str "photos/c.jpg", Json.num 7⟩ ∧
    Photo.from_json_structure (Json.obj [("uri", Json.str "photos/c.jpg")]) =
      Except.error (PyError.missingField "creation_timestamp") :=
  ⟨(creation_timestamp_fallback [("uri", Json.str "photos/c.jpg"),
      ("creation_timestamp", Json.num 7)] (Json.str "photos/c.jpg") rfl rfl).1
    (Json.num 7) rfl,
   (creation_timestamp_fallback [("uri", Json.str "photos/c.jpg")]
      (Json.str "photos/c.jpg") rfl rfl).2 rfl⟩

/-- C3 counterexample: a well-formed photo-fragment whose `exif_data`
is present but empty makes extraction fail with `IndexError` (the `[0]`
subscript), which is neither success nor a `MissingFieldError`. -/
theorem empty_exif_index_error_cex :
    isPhotoFragment egEmptyExif = true ∧
    Photo.from_json_structure egEmptyExif = Except.error PyError.indexError ∧
    okOrMissingField (Photo.from_json_structure egEmptyExif) = false :=
  ⟨rfl, rfl, rfl⟩

/-- C3 (amended): on photo-fragments of the export's shape whose
`exif_data`, when present, is nonempty, extraction is pure and its only
failure mode is `MissingFieldError`. -/
theorem extraction_ok_or_missing_field (j : Json)
    (hf : isPhotoFragment j = true) (hne : exifNonempty j = true) :
    okOrMissingField (Photo.from_json_structure j) = true := by
  rcases j with _ | b | n | s | xs | fields <;>
    simp only [isPhotoFragment, Bool.false_eq_true] at hf
  simp only [Bool.and_eq_true] at hf
  obtain ⟨⟨h1, h2⟩, h3⟩ := hf
  rcases hu : lookupField fields "uri" with _ | u
  · simp [Photo.from_json_structure, Json.getItem, hu, exceptErrorBind, okOrMissingField]
  · rcases tts_shape fields h3 hne with hnull | ⟨n, hnum⟩
    · rcases hc : lookupField fields "creation_timestamp" with _ | c
      · simp [Photo.from_json_structure, Json.getItem, hu, hnull, hc, exceptOkBind,
          exceptErrorBind, okOrMissingField]
      · simp [Photo.from_json_structure, Json.getItem, hu, hnull, hc, exceptOkBind,
          exceptErrorBind, okOrMissingField]
    · simp [Photo.from_json_structure, Json.getItem, hu, hnum, exceptOkBind,
        exceptErrorBind, okOrMissingField]

/-- C3 witness: the fragment with taken-timestamp 5 is in the amended
domain and extraction succeeds (hence is not a non-missing-field
failure). -/
theorem extraction_ok_or_missing_field_witness :
    okOrMissingField (Photo.from_json_structure egTaken) = true :=
  extraction_ok_or_missing_field egTaken rfl rfl

/-- C2 counterexample: a post with two attachments, each holding one
media-bearing data entry.  The spec counts one record per media entry
across EVERY attachment (two records), but the code subscripts only the
first attachment and produces exactly one record. -/
theorem posts_all_attachments_cex :
    isPost cexPost = true ∧
    specClaimedRecordCount [cexPost] = 2 ∧
    extract_photos_from_posts [cexPost] =
      Except.ok [⟨Json.str "u", Json.num 5⟩] :=
  ⟨rfl, rfl, rfl⟩

/-- C2 (amended): for every list of posts of the export's shape, post
extraction succeeds and returns exactly one record per media-bearing
data entry of the FIRST attachment of each post (later attachments are
ignored), silently skipping entries without a `"media"` key. -/
theorem posts_first_attachment_media_count (posts : List Json)
    (h : ∀ p ∈ posts, isPost p = true) :
    extract_photos_from_posts posts =
      Except.ok
        ((posts.map (fun p => (firstAttachmentEntries p).filterMap entryRecord)).flatten) ∧
    ((posts.map (fun p => (firstAttachmentEntries p).filterMap entryRecord)).flatten).length
      = (posts.map postMediaCount).sum := by
  constructor
  · rw [extract_photos_from_posts, posts_fold posts [] h]
    rfl
  · rw [List.length_flatten]
    induction posts with
    | nil => rfl
    | cons p rest ih =>
      have hp := h p (List.mem_cons_self p rest)
      simp only [List.map_cons, List.map_map, List.sum_cons]
      rw [entryRecord_count (firstAttachmentEntries p) (firstAttachment_all p hp)]
      have ihx := ih (fun q hq => h q (List.mem_cons_of_mem p hq))
      simp only [List.map_map] at ihx
      rw [Function.comp_def] at ihx ⊢
      rw [ihx]
      rfl

/-- C2 witness: a post whose first attachment has two data entries, one
with `media` and one without, yields exactly one record. -/
theorem posts_first_attachment_media_count_witness :
    extract_photos_from_posts [witPost] =
      Except.ok
        (([witPost].map (fun p => (firstAttachmentEntries p).filterMap entryRecord)).flatten) ∧
    (([witPost].map (fun p => (firstAttachmentEntries p).filterMap entryRecord)).flatten).length
      = ([witPost].map postMediaCount).sum :=
  posts_first_attachment_media_count [witPost]
    (fun p hp => by rw [List.mem_singleton] at hp; subst hp; rfl)

/-- C5: conversation merge is order-preserving and additive — merging a
single fragment returns it unchanged (all fields included), and for a
first fragment with a `messages` list followed by fragments with
`messages` lists, the merged document's `messages` field is the
concatenation of all the fragments' `messages` lists in fragment
order. -/
theorem merge_concatenates_messages :
    (∀ frag : Json, merge_conversation [frag] = Except.ok frag) ∧
    (∀ (fields : List (String × Json)) (rest : List Json) (zs : List Json),
      lookupField fields "messages" = some (Json.arr zs) →
      (∀ f ∈ rest, ∃ ys, f.getItem "messages" = Except.ok (Json.arr ys)) →
      merge_conversation (Json.obj fields :: rest) =
        Except.ok (Json.obj (setFieldList fields "messages"
          (Json.arr (zs ++ (rest.map messagesOf).flatten)))) ∧
      (Json.obj (setFieldList fields "messages"
          (Json.arr (zs ++ (rest.map messagesOf).flatten)))).getItem "messages" =
        Except.ok (Json.arr (((Json.obj fields :: rest).map messagesOf).flatten))) := by
  constructor
  · intro frag
    rfl
  · intro fields rest zs h hrest
    constructor
    · simp only [merge_conversation]
      exact merge_foldl rest fields zs h hrest
    · have hm : messagesOf (Json.obj fields) = zs := by
        simp [messagesOf, Json.getItem, h]
      simp [Json.getItem, lookup_set_self, hm]

/-- C5 witness: merging the fragments of the spec's example,
one fragment with message 1 and one with messages 2 and 3, yields a
document whose `messages` list is 1, 2, 3; a lone fragment with an
extra field comes back unchanged. -/
theorem merge_concatenates_messages_witness :
    merge_conversation [Json.obj [("title", Json.str "x"), ("messages", Json.arr [Json.num 1])]] =
      Except.ok (Json.obj [("title", Json.str "x"), ("messages", Json.arr [Json.num 1])]) ∧
    merge_conversation [Json.obj [("messages", Json.arr [Json.num 1])],
        Json.obj [("messages", Json.arr [Json.num 2, Json.num 3])]] =
      Except.ok (Json.obj [("messages",
        Json.arr [Json.num 1, Json.num 2, Json.num 3])]) :=
  ⟨merge_concatenates_messages.1
      (Json.obj [("title", Json.str "x"), ("messages", Json.arr [Json.num 1])]),
   (merge_concatenates_messages.2 [("messages", Json.arr [Json.num 1])]
      [Json.obj [("messages", Json.arr [Json.num 2, Json.num 3])]] [Json.num 1] rfl
      (fun f hf => by
        rw [List.mem_singleton] at hf
        subst hf
        exact ⟨[Json.num 2, Json.num 3], rfl⟩)).1⟩

/-- C6: in a merge of two or more fragments, every non-`messages`
top-level field of the result reads the same as in the first fragment;
later fragments change nothing but `messages`. -/
theorem merge_preserves_first_fragment_fields (fields : List (String × Json))
    (rest : List Json) (zs : List Json) (hne : rest ≠ [])
    (h : lookupField fields "messages" = some (Json.arr zs))
    (hrest : ∀ f ∈ rest, ∃ ys, f.getItem "messages" = Except.ok (Json.arr ys)) :
    merge_conversation (Json.obj fields :: rest) =
      Except.ok (Json.obj (setFieldList fields "messages"
        (Json.arr (zs ++ (rest.map messagesOf).flatten)))) ∧
    ∀ key, key ≠ "messages" →
      (Json.obj (setFieldList fields "messages"
          (Json.arr (zs ++ (rest.map messagesOf).flatten)))).getItem key =
        (Json.obj fields).getItem key := by
  constructor
  · simp only [merge_conversation]
    exact merge_foldl rest fields zs h hrest
  · intro key hkey
    simp [Json.getItem, lookup_set_ne fields "messages" _ key hkey]

/-- C6 witness: merging a first fragment that has a `title` field with a
second fragment leaves `title` reading exactly as in the first
fragment. -/
theorem merge_preserves_first_fragment_fields_witness :
    merge_conversation [Json.obj [("title", Json.str "x"), ("messages", Json.arr [Json.num 1])],
        Json.obj [("messages", Json.arr [Json.num 2])]] =
      Except.ok (Json.obj [("title", Json.str "x"),
        ("messages", Json.arr [Json.num 1, Json.num 2])]) ∧
    (Json.obj [("title", Json.str "x"),
        ("messages", Json.arr [Json.num 1, Json.num 2])]).getItem "title" =
      (Json.obj [("title", Json.str "x"),
        ("messages", Json.arr [Json.num 1])]).getItem "title" := by
  have hx := merge_preserves_first_fragment_fields
    [("title", Json.str "x"), ("messages", Json.arr [Json.num 1])]
    [Json.obj [("messages", Json.arr [Json.num 2])]] [Json.num 1]
    (by simp) rfl
    (fun f hf => by
      rw [List.mem_singleton] at hf
      subst hf
      exact ⟨[Json.num 2], rfl⟩)
  exact ⟨hx.1, hx.2 "title" (by simp)⟩

/-- C8: in a conversation merge whose first fragment has a `messages`
list (and every fragment before the offender does too), a later
fragment with no `messages` field makes the whole merge fail with
`MissingFieldError` for `messages`. -/
theorem merge_missing_messages_error (fields : List (String × Json)) (pre : List Json)
    (gf : List (String × Json)) (post : List Json) (zs : List Json)
    (h : lookupField fields "messages" = some (Json.arr zs))
    (hpre : ∀ g ∈ pre, ∃ ys, g.getItem "messages" = Except.ok (Json.arr ys))
    (hnone : lookupField gf "messages" = none) :
    merge_conversation (Json.obj fields :: (pre ++ Json.obj gf :: post)) =
      Except.error (PyError.missingField "messages") := by
  simp only [merge_conversation]
  rw [List.foldlM_append, merge_foldl pre fields zs h hpre, exceptOkBind,
    List.foldlM_cons,
    mergeStep_err _ gf _ (lookup_set_self fields "messages" _) hnone,
    exceptErrorBind]

/-- C8 witness: merging a first fragment with an empty `messages` list
and a second fragment lacking `messages` fails with the missing-field
error. -/
theorem merge_missing_messages_error_witness :
    merge_conversation [Json.obj [("messages", Json.arr [])],
        Json.obj [("participants", Json.arr [])]] =
      Except.error (PyError.missingField "messages") :=
  merge_missing_messages_error [("messages", Json.arr [])] []
    [("participants", Json.arr [])] [] [] rfl
    (fun g hg => absurd hg (List.not_mem_nil g)) rfl

/-- C7 counterexample: the epoch value for 999-12-31T23:59:59Z renders
as an 18-character string (the platform's unpadded year), so the
rendering is not the fixed-width `YYYY:MM:DD HH:MM:SS` pattern for
every epoch-seconds timestamp. -/
theorem timestamp_fixed_width_cex :
    renderTimestamp (-30610224001) = some "999:12:31 23:59:59" ∧
    matchesExifPattern "999:12:31 23:59:59" = false := by
  constructor
  · decide
  · decide

/-- C7 (amended): for every epoch-seconds timestamp the conversion
accepts and whose UTC year has four digits — which covers every
timestamp a social-media export can contain — the rendered value
matches the fixed-width `YYYY:MM:DD HH:MM:SS` pattern, and epoch
`1700000000` renders as the literal `2023:11:14 22:13:20`. -/
theorem timestamp_rendering_pattern :
    (∀ (ts : Int) (dt : DateTime), fromtimestampUTC ts = some dt → 1000 ≤ dt.year →
      renderTimestamp ts = some (strftimeExif dt) ∧
      matchesExifPattern (strftimeExif dt) = true) ∧
    renderTimestamp 1700000000 = some "2023:11:14 22:13:20" := by
  constructor
  · intro ts dt hdt hy
    refine ⟨by rw [renderTimestamp, hdt]; rfl, ?_⟩
    rcases hcv : civilFromDays (ts / 86400) with ⟨y, m, d⟩
    have hsmall := civil_fields_small (ts / 86400)
    rw [hcv] at hsmall
    dsimp only at hsmall
    unfold fromtimestampUTC at hdt
    dsimp only at hdt
    rw [hcv] at hdt
    by_cases hy9 : 1 ≤ y ∧ y ≤ 9999
    · rw [if_pos hy9] at hdt
      rw [Option.some_inj] at hdt
      subst hdt
      have hsod : (ts % 86400).toNat < 86400 := by omega
      apply strftime_pattern
      · exact hy
      · simp only
        omega
      · simp only
        omega
      · simp only
        omega
      · simp only
        omega
      · simp only
        omega
      · simp only
        omega
    · rw [if_neg hy9] at hdt
      exact absurd hdt (by simp)
  · decide

/-- C7 witness: at epoch 1700000000 the conversion succeeds, the
rendering is the mandated literal and it matches the pattern. -/
theorem timestamp_rendering_pattern_witness :
    renderTimestamp 1700000000 = some (strftimeExif ⟨2023, 11, 14, 22, 13, 20⟩) ∧
    matchesExifPattern (strftimeExif ⟨2023, 11, 14, 22, 13, 20⟩) = true :=
  timestamp_rendering_pattern.1 1700000000 ⟨2023, 11, 14, 22, 13, 20⟩ rfl (by norm_num)

/-- C9: for every path that does not end in `.jpg`, the metadata writer
returns without touching the file store and without an error. -/
theorem non_jpg_silent_noop (files : List (String × ExifDict)) (p : String)
    (dt : DateTime) (h : endswith p ".jpg" = false) :
    modify_date_taken files p dt = Except.ok files := by
  simp [modify_date_taken, h]

/-- C9 witness: a `.png` path is left alone even though the file
exists. -/
theorem non_jpg_silent_noop_witness :
    modify_date_taken [("photo.png", ⟨none, []⟩)] "photo.png" ⟨2023, 11, 14, 22, 13, 20⟩ =
      Except.ok [("photo.png", ⟨none, []⟩)] :=
  non_jpg_silent_noop [("photo.png", ⟨none, []⟩)] "photo.png"
    ⟨2023, 11, 14, 22, 13, 20⟩ (by decide)

/-- C10: the eligibility guard is an exact case-sensitive suffix match
on `.jpg`: paths ending in `.JPG`, `.Jpg` or `.jpeg` are skipped
without reading, modifying or raising. -/
theorem eligibility_case_sensitive (files : List (String × ExifDict)) (p : String)
    (dt : DateTime) :
    (endswith p ".JPG" = true → modify_date_taken files p dt = Except.ok files) ∧
    (endswith p ".Jpg" = true → modify_date_taken files p dt = Except.ok files) ∧
    (endswith p ".jpeg" = true → modify_date_taken files p dt = Except.ok files) := by
  refine ⟨fun h => ?_, fun h => ?_, fun h => ?_⟩
  · simp [modify_date_taken, endswith_four_excl p ".JPG" rfl (by decide) h]
  · simp [modify_date_taken, endswith_four_excl p ".Jpg" rfl (by decide) h]
  · simp [modify_date_taken, jpg_of_jpeg p h]

/-- C10 witness: concrete `.JPG`, `.Jpg` and `.jpeg` paths are all
skipped, the first even though the file is present in the store. -/
theorem eligibility_case_sensitive_witness :
    modify_date_taken [("a.JPG", ⟨none, []⟩)] "a.JPG" ⟨2023, 11, 14, 22, 13, 20⟩ =
      Except.ok [("a.JPG", ⟨none, []⟩)] ∧
    modify_date_taken [] "b.Jpg" ⟨2023, 11, 14, 22, 13, 20⟩ = Except.ok [] ∧
    modify_date_taken [] "c.jpeg" ⟨2023, 11, 14, 22, 13, 20⟩ = Except.ok [] :=
  ⟨(eligibility_case_sensitive [("a.JPG", ⟨none, []⟩)] "a.JPG"
      ⟨2023, 11, 14, 22, 13, 20⟩).1 (by decide),
   (eligibility_case_sensitive [] "b.Jpg" ⟨2023, 11, 14, 22, 13, 20⟩).2.1 (by decide),
   (eligibility_case_sensitive [] "c.jpeg" ⟨2023, 11, 14, 22, 13, 20⟩).2.2 (by decide)⟩
